import Mathlib

/-!
Verification of the 6S_emulator LUT build/interpolate/validate pipeline.

Numeric values of the Python code are embedded as rationals (`ℚ`); the
floating-point constant `np.pi` is embedded as the exact rational value of
the IEEE-754 double closest to π.  NaN entries of a numpy array are embedded
as `none : Option ℚ`.  The pickle module is embedded as an association list
from file paths to blobs (serialisation is lossless).
-/

namespace SixS

/-- Exact rational value of the IEEE-754 double `np.pi`. -/
def np_pi : ℚ := 884279719003555 / 281474976710656

/-- The 5-dimensional parameter grid of `LUT_build.input_variables`:
one ordered value list per physical dimension. -/
structure ParameterGrid where
  solar_zs : List ℚ
  H2Os : List ℚ
  O3s : List ℚ
  AOTs : List ℚ
  alts : List ℚ
deriving DecidableEq

/-- One permutation tuple (solar_z, H2O, O3, AOT, alt). -/
abbrev Perm5 := ℚ × ℚ × ℚ × ℚ × ℚ

/-- `LUT_build.permutate_invars`: `list(product(solar_zs, H2Os, O3s, AOTs, alts))`.
`itertools.product` is documented as equivalent to nested for-loops with the
first sequence in the outermost loop, which is this nested `flatMap`. -/
def permutate_invars (invars : ParameterGrid) : List Perm5 :=
  invars.solar_zs.flatMap fun s =>
    invars.H2Os.flatMap fun h =>
      invars.O3s.flatMap fun o =>
        invars.AOTs.flatMap fun a =>
          invars.alts.map fun alt => (s, h, o, a, alt)

/-- `LUT_build.mid_points`: `(x[1:] + x[:-1]) / 2` on a numpy array. -/
def mid_points (elements : List ℚ) : List ℚ :=
  List.zipWith (fun a b => (a + b) / 2) (elements.drop 1) elements.dropLast

/-! ### List lemmas used to reason about `itertools.product` order -/

theorem flatMap_length_const {α β : Type} (f : α → List β) (k : ℕ) (l : List α)
    (hk : ∀ a ∈ l, (f a).length = k) : (l.flatMap f).length = l.length * k := by
  induction l with
  | nil => simp
  | cons a t ih =>
    simp only [List.flatMap_cons, List.length_append, List.length_cons]
    rw [hk a (List.mem_cons_self a t), ih (fun x hx => hk x (List.mem_cons_of_mem a hx))]
    ring

theorem flatMap_getElem?_const {α β : Type} (f : α → List β) (k : ℕ) (l : List α) :
    ∀ (i j : ℕ), (∀ x ∈ l, (f x).length = k) → j < k →
      ∀ a, l[i]? = some a → (l.flatMap f)[i * k + j]? = (f a)[j]? := by
  induction l with
  | nil => intro i j _ _ a ha; simp at ha
  | cons b t ih =>
    intro i j hk hj a ha
    have hfb : (f b).length = k := hk b (List.mem_cons_self b t)
    have hkt : ∀ x ∈ t, (f x).length = k := fun x hx => hk x (List.mem_cons_of_mem b hx)
    cases i with
    | zero =>
      simp only [List.getElem?_cons_zero, Option.some.injEq] at ha
      subst ha
      simp only [List.flatMap_cons, Nat.zero_mul, Nat.zero_add]
      exact List.getElem?_append_left (by rw [hfb]; exact hj)
    | succ n =>
      simp only [List.getElem?_cons_succ] at ha
      simp only [List.flatMap_cons]
      rw [List.getElem?_append_right (by rw [hfb, Nat.succ_mul]; omega)]
      have harith : (n + 1) * k + j - (f b).length = n * k + j := by
        rw [hfb, Nat.succ_mul]; omega
      rw [harith]
      exact ih n j hkt hj a ha

theorem flatMap_getElemBang_const {α β : Type} [Inhabited α] [Inhabited β]
    (f : α → List β) (k : ℕ) (l : List α)
    (hk : ∀ x ∈ l, (f x).length = k) (i j : ℕ)
    (hi : i < l.length) (hj : j < k) :
    (l.flatMap f)[i * k + j]! = (f l[i]!)[j]! := by
  have hmem : l[i] ∈ l := List.getElem_mem hi
  have hfl : (f l[i]).length = k := hk _ hmem
  have hq : (l.flatMap f)[i * k + j]? = (f l[i])[j]? :=
    flatMap_getElem?_const f k l i j hk hj l[i] (List.getElem?_eq_getElem hi)
  have htot : i * k + j < (l.flatMap f).length := by
    rw [flatMap_length_const f k l hk]
    calc i * k + j < i * k + k := by omega
      _ = (i + 1) * k := by ring
      _ ≤ l.length * k := Nat.mul_le_mul_right k hi
  have hj2 : j < (f l[i]).length := by rw [hfl]; exact hj
  rw [getElem!_pos l i hi, getElem!_pos (l.flatMap f) (i * k + j) htot,
    getElem!_pos (f l[i]) j hj2]
  have := List.getElem?_eq_getElem htot
  rw [this, List.getElem?_eq_getElem hj2] at hq
  exact Option.some.inj hq

theorem mul_radix_bound (i r n k : ℕ) (hi : i < n) (hr : r < k) : i * k + r < n * k :=
  calc i * k + r < i * k + k := by omega
    _ = (i + 1) * k := by ring
    _ ≤ n * k := Nat.mul_le_mul_right k hi

theorem map_getElemBang {α β : Type} [Inhabited α] [Inhabited β] (f : α → β) (l : List α)
    (i : ℕ) (hi : i < l.length) : (l.map f)[i]! = f l[i]! := by
  rw [getElem!_pos l i hi, getElem!_pos (l.map f) i (by simpa using hi)]
  exact List.getElem_map f

/-! ### The parameter grids of `LUT_build.input_variables` -/

/-- The `test` grid of `input_variables`. -/
def test : ParameterGrid :=
  { solar_zs := [0], H2Os := [0], O3s := [0], AOTs := [0], alts := [0] }

/-- The `test2` grid of `input_variables`. -/
def test2 : ParameterGrid :=
  { solar_zs := [0, 10, 20], H2Os := [0, 2, 3], O3s := [0, 0.4, 0.8],
    AOTs := [0, 1.0], alts := [0, 2, 4] }

/-- The `full` grid of `input_variables`. -/
def full : ParameterGrid :=
  { solar_zs := [0, 10, 20, 30, 40, 50, 60, 65, 70, 75],
    H2Os := [0, 0.25, 0.5, 1, 1.5, 2, 3, 5, 8.5],
    O3s := [0.0, 0.8],
    AOTs := [0, 0.25, 0.5, 0.75, 1.0, 1.25, 1.5, 2.25, 3],
    alts := [0, 1, 4, 7.75] }

/-- The `validation` grid of `input_variables`: midpoints of the `full` grid. -/
def validation : ParameterGrid :=
  { solar_zs := mid_points full.solar_zs,
    H2Os := mid_points full.H2Os,
    O3s := mid_points full.O3s,
    AOTs := mid_points full.AOTs,
    alts := mid_points full.alts }

/-- The `build_selector` dictionary lookup of `input_variables`; `none`
embeds the `KeyError` raised on an unrecognized key. -/
def input_variables (build_type : String) : Option ParameterGrid :=
  if build_type = "test" then some test
  else if build_type = "test2" then some test2
  else if build_type = "validation" then some validation
  else if build_type = "full" then some full
  else none

theorem permutate_invars_length (g : ParameterGrid) :
    (permutate_invars g).length =
      g.solar_zs.length * (g.H2Os.length * (g.O3s.length * (g.AOTs.length * g.alts.length))) := by
  have len3 : ∀ s h o : ℚ,
      ((g.AOTs.flatMap fun a => g.alts.map fun t => (s, h, o, a, t)).length) =
        g.AOTs.length * g.alts.length := by
    intro s h o
    exact flatMap_length_const _ _ _ (fun a _ => by simp)
  have len2 : ∀ s h : ℚ,
      ((g.O3s.flatMap fun o => g.AOTs.flatMap fun a =>
          g.alts.map fun t => (s, h, o, a, t)).length) =
        g.O3s.length * (g.AOTs.length * g.alts.length) := by
    intro s h
    exact flatMap_length_const _ _ _ (fun o _ => len3 s h o)
  have len1 : ∀ s : ℚ,
      ((g.H2Os.flatMap fun h => g.O3s.flatMap fun o => g.AOTs.flatMap fun a =>
          g.alts.map fun t => (s, h, o, a, t)).length) =
        g.H2Os.length * (g.O3s.length * (g.AOTs.length * g.alts.length)) := by
    intro s
    exact flatMap_length_const _ _ _ (fun h _ => len2 s h)
  exact flatMap_length_const _ _ _ (fun s _ => len1 s)

/-- C1: `permutate_invars` returns the Cartesian product of the 5 dimension
sequences in fixed order (solar_z, H2O, O3, AOT, altitude), nested-loop order
with the first dimension varying slowest, and its length is the product of
the 5 sequence lengths. -/
theorem C1_permutation_cartesian (g : ParameterGrid) :
    ((permutate_invars g).length
        = g.solar_zs.length * g.H2Os.length * g.O3s.length * g.AOTs.length * g.alts.length)
    ∧ (∀ x : Perm5, x ∈ permutate_invars g ↔
        x.1 ∈ g.solar_zs ∧ x.2.1 ∈ g.H2Os ∧ x.2.2.1 ∈ g.O3s
          ∧ x.2.2.2.1 ∈ g.AOTs ∧ x.2.2.2.2 ∈ g.alts)
    ∧ (∀ i1 i2 i3 i4 i5 : ℕ,
        i1 < g.solar_zs.length → i2 < g.H2Os.length → i3 < g.O3s.length →
        i4 < g.AOTs.length → i5 < g.alts.length →
        (permutate_invars g)[
            i1 * (g.H2Os.length * (g.O3s.length * (g.AOTs.length * g.alts.length)))
            + i2 * (g.O3s.length * (g.AOTs.length * g.alts.length))
            + i3 * (g.AOTs.length * g.alts.length)
            + i4 * g.alts.length + i5]!
          = (g.solar_zs[i1]!, g.H2Os[i2]!, g.O3s[i3]!, g.AOTs[i4]!, g.alts[i5]!)) := by
  have len3 : ∀ s h o : ℚ,
      ((g.AOTs.flatMap fun a => g.alts.map fun t => (s, h, o, a, t)).length) =
        g.AOTs.length * g.alts.length :=
    fun s h o => flatMap_length_const _ _ _ (fun a _ => by simp)
  have len2 : ∀ s h : ℚ,
      ((g.O3s.flatMap fun o => g.AOTs.flatMap fun a =>
          g.alts.map fun t => (s, h, o, a, t)).length) =
        g.O3s.length * (g.AOTs.length * g.alts.length) :=
    fun s h => flatMap_length_const _ _ _ (fun o _ => len3 s h o)
  have len1 : ∀ s : ℚ,
      ((g.H2Os.flatMap fun h => g.O3s.flatMap fun o => g.AOTs.flatMap fun a =>
          g.alts.map fun t => (s, h, o, a, t)).length) =
        g.H2Os.length * (g.O3s.length * (g.AOTs.length * g.alts.length)) :=
    fun s => flatMap_length_const _ _ _ (fun h _ => len2 s h)
  refine ⟨?_, ?_, ?_⟩
  · rw [permutate_invars_length]; ring
  · intro x
    constructor
    · intro hx
      simp only [permutate_invars, List.mem_flatMap, List.mem_map] at hx
      obtain ⟨s, hs, h, hh, o, ho, a, ha, t, ht, rfl⟩ := hx
      exact ⟨hs, hh, ho, ha, ht⟩
    · rintro ⟨h1, h2, h3, h4, h5⟩
      simp only [permutate_invars, List.mem_flatMap, List.mem_map]
      exact ⟨x.1, h1, x.2.1, h2, x.2.2.1, h3, x.2.2.2.1, h4, x.2.2.2.2, h5, rfl⟩
  · intro i1 i2 i3 i4 i5 hi1 hi2 hi3 hi4 hi5
    have hr4 : i4 * g.alts.length + i5 < g.AOTs.length * g.alts.length :=
      mul_radix_bound _ _ _ _ hi4 hi5
    have hr3 : i3 * (g.AOTs.length * g.alts.length) + (i4 * g.alts.length + i5)
        < g.O3s.length * (g.AOTs.length * g.alts.length) :=
      mul_radix_bound _ _ _ _ hi3 hr4
    have hr2 : i2 * (g.O3s.length * (g.AOTs.length * g.alts.length))
          + (i3 * (g.AOTs.length * g.alts.length) + (i4 * g.alts.length + i5))
        < g.H2Os.length * (g.O3s.length * (g.AOTs.length * g.alts.length)) :=
      mul_radix_bound _ _ _ _ hi2 hr3
    have hidx :
        i1 * (g.H2Os.length * (g.O3s.length * (g.AOTs.length * g.alts.length)))
          + i2 * (g.O3s.length * (g.AOTs.length * g.alts.length))
          + i3 * (g.AOTs.length * g.alts.length)
          + i4 * g.alts.length + i5
        = i1 * (g.H2Os.length * (g.O3s.length * (g.AOTs.length * g.alts.length)))
          + (i2 * (g.O3s.length * (g.AOTs.length * g.alts.length))
            + (i3 * (g.AOTs.length * g.alts.length) + (i4 * g.alts.length + i5))) := by
      ring
    rw [hidx]
    rw [show permutate_invars g = g.solar_zs.flatMap fun s =>
        g.H2Os.flatMap fun h => g.O3s.flatMap fun o => g.AOTs.flatMap fun a =>
          g.alts.map fun t => (s, h, o, a, t) from rfl]
    rw [flatMap_getElemBang_const _ _ _ (fun s _ => len1 s) i1 _ hi1 hr2]
    rw [flatMap_getElemBang_const _ _ _ (fun h _ => len2 _ h) i2 _ hi2 hr3]
    rw [flatMap_getElemBang_const _ _ _ (fun o _ => len3 _ _ o) i3 _ hi3 hr4]
    rw [flatMap_getElemBang_const _ _ _ (fun a _ => by simp) i4 _ hi4 hi5]
    rw [map_getElemBang _ _ _ hi5]

set_option maxRecDepth 100000 in
/-- C1 witness: concrete instance of the index formula on the `test2` grid. -/
theorem C1_permutation_cartesian_witness :
    (permutate_invars test2)[131]! = ((20 : ℚ), (2 : ℚ), (0 : ℚ), (1 : ℚ), (4 : ℚ)) := by
  have h := (C1_permutation_cartesian test2).2.2 2 1 0 1 2
    (by decide) (by decide) (by decide) (by decide) (by decide)
  simpa [test2, show (1.0 : ℚ) = 1 from by norm_num] using h

/-- The permutation reconstruction inside
`Interpolated_LUTs.interpolate_LUTs` (`bin/interpolated_LUTs.py`, lines
129-133): `list(product(invars[...], ...))` over the grid stored in the
loaded LUT's config. -/
def interpolate_LUTs_inputs (invars : ParameterGrid) : List Perm5 :=
  invars.solar_zs.flatMap fun s =>
    invars.H2Os.flatMap fun h =>
      invars.O3s.flatMap fun o =>
        invars.AOTs.flatMap fun a =>
          invars.alts.map fun alt => (s, h, o, a, alt)

/-! ### The build stage (`LUT_build.build_LUT` and `main`) and the pickle store -/

/-- The 6S outputs read by `build_LUT` after one run (LUT_build.py lines
188-197).  6S itself is the external simulation collaborator. -/
structure SixsRun where
  direct_solar_irradiance : ℚ
  diffuse_solar_irradiance : ℚ
  trans_global_gas_upward : ℚ
  trans_total_scattering_upward : ℚ
  atmospheric_intrinsic_radiance : ℚ
deriving DecidableEq, Inhabited

/-- The `config` dictionary assembled by `LUT_build.main` and `IO_handler`.
The Py6S spectrum object is opaque and kept as a string identifier. -/
structure LUTconfig where
  spectrum : String
  aerosol_profile : String
  view_zenith : ℤ
  build_type : String
  invars : ParameterGrid
  filename : String
  filepath : String
deriving DecidableEq

/-- A pickled `.lut` blob (a Python dict).  A key a writer does not include
is `none`; `inputs_permutations` stands for `blob['inputs']['permutations']`.
Output tuples are kept as lists so that tuple indexing can fail. -/
structure PickledLUT where
  config : Option LUTconfig
  inputs_permutations : Option (List Perm5)
  outputs : Option (List (List ℚ))
deriving DecidableEq

/-- The output list built by the loop of `build_LUT` (lines 172-204): for
each permutation one 6S run, then the correction coefficients `a = Lp` and
`b = tau2*E/pi`, appended in permutation order. -/
def build_outputs (config : LUTconfig) (sixs : Perm5 → SixsRun) : List (List ℚ) :=
  (permutate_invars config.invars).map fun perm =>
    let o := sixs perm
    let Edir := o.direct_solar_irradiance
    let Edif := o.diffuse_solar_irradiance
    let E := Edir + Edif
    let absorb := o.trans_global_gas_upward
    let scatter := o.trans_total_scattering_upward
    let tau2 := absorb * scatter
    let Lp := o.atmospheric_intrinsic_radiance
    let a := Lp
    let b := tau2 * E / np_pi
    [a, b]

/-- `build_LUT` (lines 155-210): the blob `{'config': config, 'outputs': outputs}`
pickled at `config['filepath']`. -/
def build_LUT (config : LUTconfig) (sixs : Perm5 → SixsRun) : PickledLUT :=
  { config := some config
    inputs_permutations := none
    outputs := some (build_outputs config sixs) }

/-- The file store: paths to pickled blobs; `pickle.dump` prepends, so the
newest write at a path wins on `lookup`. -/
abbrev FileSystem := List (String × PickledLUT)

/-- `pickle.dump(blob, open(path, 'wb'))`. -/
def pickle_dump (fs : FileSystem) (path : String) (blob : PickledLUT) : FileSystem :=
  (path, blob) :: fs

/-- `pickle.load(open(path, 'rb'))`. -/
def pickle_load (fs : FileSystem) (path : String) : Option PickledLUT :=
  fs.lookup path

/-- Python dict access `d[key]`: `KeyError` when absent. -/
def dict_get {α : Type} (v : Option α) (err : String) : Except String α :=
  match v with
  | some x => Except.ok x
  | none => Except.error err

/-- Python tuple indexing `o[i]`: `IndexError` when out of range. -/
def tuple_get (o : List ℚ) (i : ℕ) : Except String ℚ :=
  match o[i]? with
  | some v => Except.ok v
  | none => Except.error "IndexError: tuple index out of range"

/-- `list(zip(a, b, c, d, e))` (truncates to the shortest input). -/
def zip5 (a b c d e : List ℚ) : List Perm5 :=
  List.zipWith (fun x (r : ℚ × ℚ × ℚ × ℚ) => (x, r)) a
    (List.zipWith (fun x (r : ℚ × ℚ × ℚ) => (x, r)) b
      (List.zipWith (fun x (r : ℚ × ℚ) => (x, r)) c
        (List.zipWith (fun x y => (x, y)) d e)))

/-- `list(zip(a, b, c, d))`. -/
def zip4 (a b c d : List ℚ) : List (ℚ × ℚ × ℚ × ℚ) :=
  List.zipWith (fun x (r : ℚ × ℚ × ℚ) => (x, r)) a
    (List.zipWith (fun x (r : ℚ × ℚ) => (x, r)) b
      (List.zipWith (fun x y => (x, y)) c d))

/-- The data part of `create_interpolator` (LUT_interpolate.py lines 22-68):
read `LUT['inputs']['permutations']` and `LUT['outputs']`, split into columns
(`i[0..4]`, `o[0..3]`), re-zip into the point and value arrays handed to
`LinearNDInterpolator`. -/
def create_interpolator (blob : PickledLUT) :
    Except String (List Perm5 × List (ℚ × ℚ × ℚ × ℚ)) := do
  let inputs ← dict_get blob.inputs_permutations "KeyError: 'inputs'"
  let outputs ← dict_get blob.outputs "KeyError: 'outputs'"
  let solar_z := inputs.map fun i => i.1
  let H2O := inputs.map fun i => i.2.1
  let O3 := inputs.map fun i => i.2.2.1
  let AOT := inputs.map fun i => i.2.2.2.1
  let alt := inputs.map fun i => i.2.2.2.2
  let Edir ← outputs.mapM fun o => tuple_get o 0
  let Edif ← outputs.mapM fun o => tuple_get o 1
  let tau2 ← outputs.mapM fun o => tuple_get o 2
  let Lp ← outputs.mapM fun o => tuple_get o 3
  Except.ok (zip5 solar_z H2O O3 AOT alt, zip4 Edir Edif tau2 Lp)

/-- The LUT-reading part of `Interpolated_LUTs.interpolate_LUTs`
(bin/interpolated_LUTs.py lines 124-140): load the blob, take the grid from
its stored config, recompute the permutations and pair them with the stored
outputs. -/
def interpolate_LUTs_read (blob : PickledLUT) :
    Except String (List Perm5 × List (List ℚ)) := do
  let config ← dict_get blob.config "KeyError: 'config'"
  let invars := config.invars
  let inputs := interpolate_LUTs_inputs invars
  let outputs ← dict_get blob.outputs "KeyError: 'outputs'"
  Except.ok (inputs, outputs)

/-- C2: the permutation sequence reconstructed by the later consumer
(`Interpolated_LUTs.interpolate_LUTs`, from the grid stored in a persisted
LUT) is identical, element by element and in order, to the one produced by
the build stage's `permutate_invars` on the same grid. -/
theorem C2_consumer_rebuilds_identical_order (cfg : LUTconfig) (sixs : Perm5 → SixsRun) :
    (∀ g : ParameterGrid, interpolate_LUTs_inputs g = permutate_invars g)
    ∧ interpolate_LUTs_read (build_LUT cfg sixs)
        = Except.ok (permutate_invars cfg.invars, build_outputs cfg sixs) :=
  ⟨fun _ => rfl, rfl⟩

/-- A concrete configuration used in counterexamples and witnesses. -/
def cfg0 : LUTconfig :=
  { spectrum := "S2A_MSI_01", aerosol_profile := "Continental", view_zenith := 0,
    build_type := "test", invars := test, filename := "S2A_MSI_01.lut",
    filepath := "files/LUTs/S2A_MSI/Continental/view_zenith_0/S2A_MSI_01.lut" }

/-- A concrete stand-in for the external 6S simulation. -/
def sixs0 : Perm5 → SixsRun := fun _ =>
  { direct_solar_irradiance := 1000, diffuse_solar_irradiance := 100,
    trans_global_gas_upward := 9 / 10, trans_total_scattering_upward := 8 / 10,
    atmospheric_intrinsic_radiance := 20 }

/-- C3 counterexample: the blob persisted by `build_LUT` loads back intact,
but `create_interpolator` cannot recover the permutation sequence from it:
the blob has no `inputs` entry (it stores `config` and `outputs` only), so
the read fails with a `KeyError` instead of recovering the data. -/
theorem C3_counterexample :
    pickle_load (pickle_dump [] cfg0.filepath (build_LUT cfg0 sixs0)) cfg0.filepath
        = some (build_LUT cfg0 sixs0)
    ∧ create_interpolator (build_LUT cfg0 sixs0) = Except.error "KeyError: 'inputs'" := by
  constructor
  · simp [pickle_load, pickle_dump, List.lookup]
  · rfl

/-- C3 amended: persisting and re-loading a built Table is a lossless round
trip, and the blob contains the configuration (with its parameter grid) and
the output sequence; the permutation sequence is not stored but is
recoverable by recomputation from the stored grid (which is how
`Interpolated_LUTs.interpolate_LUTs` reads it).  `create_interpolator`,
which expects an `inputs`/`permutations` entry, fails on such a blob. -/
theorem C3_roundtrip_amended (fs : FileSystem) (path : String) (cfg : LUTconfig)
    (sixs : Perm5 → SixsRun) :
    pickle_load (pickle_dump fs path (build_LUT cfg sixs)) path = some (build_LUT cfg sixs)
    ∧ (build_LUT cfg sixs).config = some cfg
    ∧ (build_LUT cfg sixs).outputs = some (build_outputs cfg sixs)
    ∧ (build_LUT cfg sixs).inputs_permutations = none
    ∧ interpolate_LUTs_read (build_LUT cfg sixs)
        = Except.ok (permutate_invars cfg.invars, build_outputs cfg sixs)
    ∧ create_interpolator (build_LUT cfg sixs) = Except.error "KeyError: 'inputs'" := by
  refine ⟨?_, rfl, rfl, rfl, rfl, rfl⟩
  simp [pickle_load, pickle_dump, List.lookup]

/-! ### Skip-if-exists policy and build-type validation of the two `main`s -/

/-- The build step of `LUT_build.main` (lines 346-352): if
`os.path.isfile(config['filepath'])` then skip, else `build_LUT` (which
pickles its result at that path).  The boolean records whether `build_LUT`
was called. -/
def lut_build_step (fs : FileSystem) (config : LUTconfig) (sixs : Perm5 → SixsRun) :
    FileSystem × Bool :=
  if (pickle_load fs config.filepath).isSome then (fs, false)
  else (pickle_dump fs config.filepath (build_LUT config sixs), true)

/-- Store of pickled `.ilut` interpolator objects, keyed by path. -/
abbrev IlutStore := List (String × (List Perm5 × List (ℚ × ℚ × ℚ × ℚ)))

/-- One iteration of the loop of `LUT_interpolate.main` (lines 102-114): if
the `.ilut` file already exists then skip, else `create_interpolator` on the
loaded `.lut` blob and pickle the result there.  The boolean records whether
interpolation ran. -/
def lut_interpolate_step (ifs : IlutStore) (ilut_filepath : String) (blob : PickledLUT) :
    Except String (IlutStore × Bool) :=
  if (ifs.lookup ilut_filepath).isSome then Except.ok (ifs, false)
  else do
    let interp ← create_interpolator blob
    Except.ok ((ilut_filepath, interp) :: ifs, true)

/-- C8: invoking the build step twice for the same configuration runs the
simulation pass at most once: the second invocation does not call
`build_LUT` and leaves the store untouched; the interpolated-table step
obeys the same skip-if-exists policy. -/
theorem C8_skip_if_exists (fs : FileSystem) (config : LUTconfig) (sixs : Perm5 → SixsRun)
    (ifs ifs1 : IlutStore) (p : String) (blob : PickledLUT) (b1 : Bool)
    (h : lut_interpolate_step ifs p blob = Except.ok (ifs1, b1)) :
    lut_build_step (lut_build_step fs config sixs).1 config sixs
        = ((lut_build_step fs config sixs).1, false)
    ∧ lut_interpolate_step ifs1 p blob = Except.ok (ifs1, false) := by
  constructor
  · by_cases hc : (pickle_load fs config.filepath).isSome
    · simp [lut_build_step, hc]
    · simp only [lut_build_step, hc, if_false, Bool.false_eq_true]
      have : (pickle_load (pickle_dump fs config.filepath (build_LUT config sixs))
          config.filepath).isSome := by
        simp [pickle_load, pickle_dump, List.lookup]
      simp [this]
  · by_cases hc : (ifs.lookup p).isSome
    · unfold lut_interpolate_step at h ⊢
      rw [if_pos hc] at h
      have hp : (ifs, false) = (ifs1, b1) := Except.ok.inj h
      have h5 : ifs1 = ifs := (Prod.mk.inj hp).1.symm
      subst h5
      rw [if_pos hc]
    · unfold lut_interpolate_step at h ⊢
      rw [if_neg hc] at h
      cases hcr : create_interpolator blob with
      | error e => rw [hcr] at h; simp [Bind.bind, Except.bind] at h
      | ok interp =>
        rw [hcr] at h
        simp only [Bind.bind, Except.bind, Except.ok.injEq] at h
        have hifs : ifs1 = (p, interp) :: ifs := (Prod.mk.injEq _ _ _ _ ▸ h).1.symm
        subst hifs
        rw [if_pos (by simp [List.lookup])]

/-- C8 witness: concrete run on an empty store. -/
theorem C8_skip_if_exists_witness :
    lut_build_step (lut_build_step [] cfg0 sixs0).1 cfg0 sixs0
        = ((lut_build_step [] cfg0 sixs0).1, false)
    ∧ lut_interpolate_step [("a.ilut", ([], []))] "a.ilut" (build_LUT cfg0 sixs0)
        = Except.ok ([("a.ilut", ([], []))], false) := by
  exact C8_skip_if_exists [] cfg0 sixs0 [("a.ilut", ([], []))] [("a.ilut", ([], []))]
    "a.ilut" (build_LUT cfg0 sixs0) false (by rfl)

/-- The list of the `--build_type` check of `LUT_build.main` (line 324). -/
def recognized_build_types : List String := ["test", "test2", "full", "validation"]

/-- `LUT_build.main` from the build-type validation (lines 322-329) to the
build step: validate or default the tag, look the grid up in
`input_variables`, assemble the config (the remaining fields — spectrum
parsing, `IO_handler` paths — are glue abstracted by `mk_config`), then
skip-or-build. -/
def lut_build_main (args_build_type : Option String) (fs : FileSystem)
    (mk_config : String → ParameterGrid → LUTconfig) (sixs : Perm5 → SixsRun) :
    Except String (FileSystem × Bool) := do
  let build_type ← match args_build_type with
    | some bt =>
        if bt ∈ recognized_build_types then Except.ok bt
        else Except.error ("Build type not recognized: " ++ bt)
    | none => Except.ok "test"
  let invars ← dict_get (input_variables build_type) ("KeyError: " ++ build_type)
  Except.ok (lut_build_step fs (mk_config build_type invars) sixs)

/-- C9: a build-type tag outside {test, test2, validation, full} makes the
build fail with the checked "Build type not recognized" error before any
artifact is written (the run never reaches the build step), and the
`build_selector` dict of `input_variables` has no entry for the tag either —
there is no silent fallback grid. -/
theorem C9_unrecognized_build_type (bt : String) (fs : FileSystem)
    (mk_config : String → ParameterGrid → LUTconfig) (sixs : Perm5 → SixsRun)
    (h : bt ∉ recognized_build_types) :
    lut_build_main (some bt) fs mk_config sixs
        = Except.error ("Build type not recognized: " ++ bt)
    ∧ input_variables bt = none := by
  have h1 : bt ≠ "test" := by intro he; exact h (by simp [recognized_build_types, he])
  have h2 : bt ≠ "test2" := by intro he; exact h (by simp [recognized_build_types, he])
  have h3 : bt ≠ "full" := by intro he; exact h (by simp [recognized_build_types, he])
  have h4 : bt ≠ "validation" := by intro he; exact h (by simp [recognized_build_types, he])
  constructor
  · simp only [lut_build_main, if_neg h]
    rfl
  · simp only [input_variables, if_neg h1, if_neg h2, if_neg h4, if_neg h3]

/-- C9 witness: the tag "smoke" is rejected. -/
theorem C9_unrecognized_build_type_witness :
    lut_build_main (some "smoke") [] (fun _ _ => cfg0) sixs0
        = Except.error ("Build type not recognized: " ++ "smoke")
    ∧ input_variables "smoke" = none :=
  C9_unrecognized_build_type "smoke" [] (fun _ _ => cfg0) sixs0 (by decide)

/-- C5: `mid_points [v0..vn]` is the list of arithmetic midpoints of
consecutive entries, of length one less than its input, and the
`validation` grid of `input_variables` is `mid_points` of the `full` grid
in every dimension. -/
theorem C5_mid_points_consecutive (l : List ℚ) :
    ((mid_points l).length = l.length - 1)
    ∧ (∀ i : ℕ, i + 1 < l.length → (mid_points l)[i]! = (l[i]! + l[i + 1]!) / 2)
    ∧ validation.solar_zs = mid_points full.solar_zs
    ∧ validation.H2Os = mid_points full.H2Os
    ∧ validation.O3s = mid_points full.O3s
    ∧ validation.AOTs = mid_points full.AOTs
    ∧ validation.alts = mid_points full.alts := by
  refine ⟨?_, ?_, rfl, rfl, rfl, rfl, rfl⟩
  · simp [mid_points]
  · intro i hi
    have hz : i < (mid_points l).length := by
      simp only [mid_points, List.length_zipWith, List.length_drop,
        List.length_dropLast]
      omega
    have hd : i < (l.drop 1).length := by simp only [List.length_drop]; omega
    have hdl : i < l.dropLast.length := by simp only [List.length_dropLast]; omega
    rw [getElem!_pos (mid_points l) i hz, getElem!_pos l i (by omega),
      getElem!_pos l (i + 1) hi]
    unfold mid_points
    rw [List.getElem_zipWith, List.getElem_drop, List.getElem_dropLast]
    simp only [Nat.add_comm 1 i]
    ring

/-- C5 witness: the first midpoint of the full solar-zenith grid. -/
theorem C5_mid_points_consecutive_witness :
    (mid_points full.solar_zs)[0]! = (full.solar_zs[0]! + full.solar_zs[1]!) / 2 :=
  (C5_mid_points_consecutive full.solar_zs).2.1 0 (by decide)

/-! ### Validation statistics (`z/validation/validation_stats.py` and its
copy in `z/validation/Deterministic/LUT_validation_stats.py`) -/

/-- The local `at_sensor_radiance` of `reflectance_stats` (lines 19-20). -/
def at_sensor_radiance (ref Edir Edif tau2 Lp : ℚ) : ℚ :=
  ref * tau2 * (Edir + Edif) / np_pi + Lp

/-- The local `surface_reflectance` of `reflectance_stats` (lines 22-23). -/
def surface_reflectance (rad Edir Edif tau2 Lp : ℚ) : ℚ :=
  np_pi * (rad - Lp) / (tau2 * (Edir + Edif))

/-- One row of the `sixs_outputs` / `estimated_outputs` arrays; the fields
are the columns `row[0..3]`. -/
structure OutputRow where
  Edir : ℚ
  Edif : ℚ
  tau2 : ℚ
  Lp : ℚ
deriving DecidableEq, Inhabited

/-- Line 30: `radiance = at_sensor_radiance(ref, SixS[:,0], ..., SixS[:,3])`;
the numpy broadcast applies the formula row by row. -/
def radiances (ref : ℚ) (sixs_outputs : List OutputRow) : List ℚ :=
  sixs_outputs.map fun v => at_sensor_radiance ref v.Edir v.Edif v.tau2 v.Lp

/-- Line 33: `interp_ref = surface_reflectance(radiance, est[:,0], ..., est[:,3])`,
elementwise over the radiance array and the estimated rows. -/
def interp_refs (ref : ℚ) (sixs_outputs est : List OutputRow) : List ℚ :=
  List.zipWith (fun rad e => surface_reflectance rad e.Edir e.Edif e.tau2 e.Lp)
    (radiances ref sixs_outputs) est

/-- Line 36: `pd = 100*(interp_ref-ref)/ref`. -/
def percent_diffs (ref : ℚ) (sixs_outputs est : List OutputRow) : List ℚ :=
  (interp_refs ref sixs_outputs est).map fun r => 100 * (r - ref) / ref

/-- Line 37: `pd = pd[np.where(pd==pd)]` keeps exactly the non-NaN entries
(`NaN != NaN`); a NaN entry of the array is embedded as `none`. -/
def ignore_NaNs (pd : List (Option ℚ)) : List ℚ := pd.filterMap id

/-- `np.mean`: NaN (with a runtime warning) on an empty array. -/
def np_mean (l : List ℚ) : Option ℚ :=
  if l.isEmpty then none else some (l.sum / l.length)

/-- The square of `np.std` (population standard deviation).  The square
root of this mean of squared deviations is irrational in general; which
values enter the computation is unchanged by taking the root. -/
def np_std_sq (l : List ℚ) : Option ℚ :=
  match np_mean l with
  | none => none
  | some m => some ((l.map fun x => (x - m) ^ 2).sum / l.length)

/-- `np.min`: `ValueError` on an empty array, embedded as `none`. -/
def np_min : List ℚ → Option ℚ
  | [] => none
  | x :: xs => some (xs.foldl min x)

/-- `np.max`: `ValueError` on an empty array, embedded as `none`. -/
def np_max : List ℚ → Option ℚ
  | [] => none
  | x :: xs => some (xs.foldl max x)

/-- `np.percentile(a, q)` with the default linear interpolation: on the
ascending sort `s` of `a`, `pos = q*(n-1)/100`, `i = floor(pos)`, result
`s[i] + (pos-i)*(s[i+1]-s[i])` (last element when `i+1 = n`).  `ValueError`
on an empty array, embedded as `none`. -/
def np_percentile (l : List ℚ) (q : ℚ) : Option ℚ :=
  match l.insertionSort (· ≤ ·) with
  | [] => none
  | x :: xs =>
    let s := x :: xs
    let n := s.length
    let pos := q * ((n : ℚ) - 1) / 100
    let i := pos.floor.toNat
    if i + 1 < n then some (s[i]! + (pos - pos.floor) * (s[i + 1]! - s[i]!))
    else some (s[n - 1]!)

/-- The dict returned by `reflectance_stats` (line 47): the reference
reflectance, the filtered `pd` array, the summary statistics and the
90/95/99 percent confidence percentiles of `abs(pd)`. -/
structure StatsResult where
  ref : ℚ
  pd : List ℚ
  mean : Option ℚ
  std_sq : Option ℚ
  min : ℚ
  max : ℚ
  conf90 : ℚ
  conf95 : ℚ
  conf99 : ℚ
deriving DecidableEq

/-- Lines 37-47 of `reflectance_stats`, from the NaN filter on: filter `pd`,
then mean/std/min/max and the percentiles of `abs(pd)`.  On an empty
(all-NaN) filtered array `np.min` raises `ValueError`, aborting the call. -/
def reflectance_stats_tail (ref : ℚ) (pd0 : List (Option ℚ)) : Except String StatsResult :=
  match np_min (ignore_NaNs pd0), np_max (ignore_NaNs pd0),
      np_percentile ((ignore_NaNs pd0).map abs) 90,
      np_percentile ((ignore_NaNs pd0).map abs) 95,
      np_percentile ((ignore_NaNs pd0).map abs) 99 with
  | some mn, some mx, some q90, some q95, some q99 =>
      Except.ok
        { ref := ref
          pd := ignore_NaNs pd0
          mean := np_mean (ignore_NaNs pd0)
          std_sq := np_std_sq (ignore_NaNs pd0)
          min := mn
          max := mx
          conf90 := q90
          conf95 := q95
          conf99 := q99 }
  | _, _, _, _, _ =>
      Except.error "ValueError: zero-size array to reduction operation minimum which has no identity"

theorem length_ignore_NaNs (pd : List (Option ℚ)) :
    (ignore_NaNs pd).length = pd.length - pd.count none := by
  induction pd with
  | nil => rfl
  | cons a t ih =>
    have hle : t.count none ≤ t.length := List.count_le_length none t
    cases a with
    | none => simp [ignore_NaNs, List.count_cons] at ih ⊢; omega
    | some x => simp [ignore_NaNs, List.count_cons] at ih ⊢; omega

theorem np_percentile_of_ne_nil (l : List ℚ) (q : ℚ) (h : l ≠ []) :
    ∃ v, np_percentile l q = some v := by
  unfold np_percentile
  cases hs : l.insertionSort (· ≤ ·) with
  | nil =>
    exfalso
    have hp := List.perm_insertionSort (· ≤ ·) l
    rw [hs] at hp
    exact h (List.Perm.eq_nil hp.symm)
  | cons x xs =>
    dsimp only
    by_cases hc : (q * (((x :: xs).length : ℚ) - 1) / 100).floor.toNat + 1 < (x :: xs).length
    · rw [if_pos hc]; exact ⟨_, rfl⟩
    · rw [if_neg hc]; exact ⟨_, rfl⟩

/-- C7: with `k` NaN entries among `N` trials, the NaN filter keeps exactly
`N-k` values, every statistic of the result is computed from that filtered
array, the computation succeeds whenever `N-k ≥ 1`, and an all-NaN input is
a hard `ValueError`, not a silently returned result. -/
theorem C7_nan_exclusion (ref : ℚ) (pd0 : List (Option ℚ)) :
    ((ignore_NaNs pd0).length = pd0.length - pd0.count none)
    ∧ (pd0.count none < pd0.length →
        ∃ mn mx q90 q95 q99 : ℚ,
          np_min (ignore_NaNs pd0) = some mn
          ∧ np_max (ignore_NaNs pd0) = some mx
          ∧ np_percentile ((ignore_NaNs pd0).map abs) 90 = some q90
          ∧ np_percentile ((ignore_NaNs pd0).map abs) 95 = some q95
          ∧ np_percentile ((ignore_NaNs pd0).map abs) 99 = some q99
          ∧ reflectance_stats_tail ref pd0 = Except.ok
              { ref := ref
                pd := ignore_NaNs pd0
                mean := np_mean (ignore_NaNs pd0)
                std_sq := np_std_sq (ignore_NaNs pd0)
                min := mn
                max := mx
                conf90 := q90
                conf95 := q95
                conf99 := q99 })
    ∧ (pd0.count none = pd0.length →
        reflectance_stats_tail ref pd0 = Except.error
          "ValueError: zero-size array to reduction operation minimum which has no identity") := by
  refine ⟨length_ignore_NaNs pd0, ?_, ?_⟩
  · intro h
    have hlen : 0 < (ignore_NaNs pd0).length := by
      rw [length_ignore_NaNs]; omega
    obtain ⟨x, xs, hx⟩ : ∃ x xs, ignore_NaNs pd0 = x :: xs := by
      cases hc : ignore_NaNs pd0 with
      | nil => rw [hc] at hlen; simp at hlen
      | cons a t => exact ⟨a, t, rfl⟩
    have hmapne : (ignore_NaNs pd0).map abs ≠ [] := by
      rw [hx]; simp
    obtain ⟨q90, h90⟩ := np_percentile_of_ne_nil _ 90 hmapne
    obtain ⟨q95, h95⟩ := np_percentile_of_ne_nil _ 95 hmapne
    obtain ⟨q99, h99⟩ := np_percentile_of_ne_nil _ 99 hmapne
    have hmn : np_min (ignore_NaNs pd0) = some (xs.foldl min x) := by rw [hx]; rfl
    have hmx : np_max (ignore_NaNs pd0) = some (xs.foldl max x) := by rw [hx]; rfl
    refine ⟨_, _, q90, q95, q99, hmn, hmx, h90, h95, h99, ?_⟩
    unfold reflectance_stats_tail
    rw [hmn, hmx, h90, h95, h99]
  · intro h
    have hlen : (ignore_NaNs pd0).length = 0 := by
      have hle : pd0.count none ≤ pd0.length := List.count_le_length none pd0
      rw [length_ignore_NaNs]; omega
    have he : ignore_NaNs pd0 = [] := List.eq_nil_of_length_eq_zero hlen
    unfold reflectance_stats_tail
    rw [he]
    rfl

/-- C7 witness: one NaN among three trials is excluded from the count, and
an all-NaN input aborts with the `ValueError`. -/
theorem C7_nan_exclusion_witness :
    ((ignore_NaNs [some 10, none, some 30]).length = 3 - 1)
    ∧ reflectance_stats_tail (1 / 100) [none, none] = Except.error
        "ValueError: zero-size array to reduction operation minimum which has no identity" := by
  constructor
  · have h := (C7_nan_exclusion (1 / 100) [some 10, none, some 30]).1
    simpa using h
  · exact (C7_nan_exclusion (1 / 100) [none, none]).2.2 (by decide)

/-- C6: row by row, the computed at-sensor radiance and the recovered
reflectance follow the forward and inverse radiative model formulas,
for every reference reflectance and every pair of 4-component rows. -/
theorem C6_forward_inverse_formulas (ref : ℚ) (sixs est : List OutputRow) (i : ℕ)
    (h1 : i < sixs.length) (h2 : i < est.length) :
    (radiances ref sixs)[i]!
        = ref * (sixs[i]!).tau2 * ((sixs[i]!).Edir + (sixs[i]!).Edif) / np_pi
            + (sixs[i]!).Lp
    ∧ (interp_refs ref sixs est)[i]!
        = np_pi * ((radiances ref sixs)[i]! - (est[i]!).Lp)
            / ((est[i]!).tau2 * ((est[i]!).Edir + (est[i]!).Edif)) := by
  have hrl : (radiances ref sixs).length = sixs.length := by
    simp [radiances]
  have hr : i < (radiances ref sixs).length := by rw [hrl]; exact h1
  have hz : i < (interp_refs ref sixs est).length := by
    simp only [interp_refs, List.length_zipWith, hrl]
    omega
  constructor
  · rw [getElem!_pos (radiances ref sixs) i hr, getElem!_pos sixs i h1]
    unfold radiances
    rw [List.getElem_map]
    rfl
  · rw [getElem!_pos (interp_refs ref sixs est) i hz, getElem!_pos est i h2,
      getElem!_pos (radiances ref sixs) i hr]
    unfold interp_refs
    rw [List.getElem_zipWith]
    rfl

/-- Concrete truth row used in witnesses. -/
def row1 : OutputRow := { Edir := 1000, Edif := 100, tau2 := 18 / 25, Lp := 20 }

/-- Concrete estimated row used in witnesses. -/
def row2 : OutputRow := { Edir := 900, Edif := 120, tau2 := 7 / 10, Lp := 25 }

/-- C6 witness: the formulas at the first row of concrete arrays. -/
theorem C6_forward_inverse_formulas_witness :
    (radiances (1 / 10) [row1])[0]!
        = 1 / 10 * row1.tau2 * (row1.Edir + row1.Edif) / np_pi + row1.Lp
    ∧ (interp_refs (1 / 10) [row1] [row2])[0]!
        = np_pi * ((radiances (1 / 10) [row1])[0]! - row2.Lp)
            / (row2.tau2 * (row2.Edir + row2.Edif)) := by
  have h := C6_forward_inverse_formulas (1 / 10) [row1] [row2] 0 (by decide) (by decide)
  simpa using h

theorem forward_inverse_key (r e1 e2 t2 lp : ℚ) (hne : t2 * (e1 + e2) ≠ 0) :
    surface_reflectance (at_sensor_radiance r e1 e2 t2 lp) e1 e2 t2 lp = r := by
  have hpi : np_pi ≠ 0 := by unfold np_pi; norm_num
  have ht : t2 ≠ 0 := fun h0 => hne (by rw [h0]; ring)
  have he : e1 + e2 ≠ 0 := fun h0 => hne (by rw [h0]; ring)
  unfold surface_reflectance at_sensor_radiance
  field_simp
  ring

theorem percent_diffs_self (ref : ℚ) (sixs : List OutputRow)
    (hs : ∀ v ∈ sixs, v.tau2 * (v.Edir + v.Edif) ≠ 0) :
    percent_diffs ref sixs sixs = List.replicate sixs.length 0 := by
  induction sixs with
  | nil => rfl
  | cons v t ih =>
    have hv : v.tau2 * (v.Edir + v.Edif) ≠ 0 := hs v (List.mem_cons_self v t)
    have ht : ∀ w ∈ t, w.tau2 * (w.Edir + w.Edif) ≠ 0 :=
      fun w hw => hs w (List.mem_cons_of_mem v hw)
    have htail := ih ht
    simp only [percent_diffs, interp_refs, radiances, List.map_cons,
      List.zipWith_cons_cons, List.length_cons, List.replicate_succ,
      List.cons.injEq] at htail ⊢
    constructor
    · rw [forward_inverse_key ref v.Edir v.Edif v.tau2 v.Lp hv]
      simp
    · exact htail

/-- C10: over exact arithmetic, applying the inverse model to the forward
model's radiance with the same output vector returns exactly the reference
reflectance whenever `tau2*(Edir+Edif) ≠ 0`; hence when the interpolated
outputs equal the truth outputs, every computed percentage difference is
zero. -/
theorem C10_forward_inverse_roundtrip (ref Edir Edif tau2 Lp : ℚ) (sixs : List OutputRow)
    (h : tau2 * (Edir + Edif) ≠ 0)
    (hs : ∀ v ∈ sixs, v.tau2 * (v.Edir + v.Edif) ≠ 0) :
    surface_reflectance (at_sensor_radiance ref Edir Edif tau2 Lp) Edir Edif tau2 Lp = ref
    ∧ percent_diffs ref sixs sixs = List.replicate sixs.length 0 :=
  ⟨forward_inverse_key ref Edir Edif tau2 Lp h, percent_diffs_self ref sixs hs⟩

/-- C10 witness: the round trip at concrete values, and zero percentage
difference when the estimated row equals the truth row. -/
theorem C10_forward_inverse_roundtrip_witness :
    surface_reflectance (at_sensor_radiance (1 / 100) 1000 100 (18 / 25) 20)
        1000 100 (18 / 25) 20 = 1 / 100
    ∧ percent_diffs (1 / 100) [row1] [row1] = List.replicate 1 0 := by
  have h := C10_forward_inverse_roundtrip (1 / 100) 1000 100 (18 / 25) 20 [row1]
    (by norm_num)
    (by intro v hv; rw [List.mem_singleton] at hv; subst hv; norm_num [row1])
  exact h

end SixS
